import Mathlib

/-
  Verification of the contacts-management backend (fastapi-example).

  Shallow embedding of the data model and operations of the repository:
  - `entity/models.py`     : `Contact`, `User` records (dates and timestamps as integers)
  - `repository/contact.py`: owner-scoped CRUD and search queries over a list-modelled table
  - `repository/user.py`   : user lookup, OTP update, activation
  - `service/auth.py`      : password check (parameterised verifier), JWT issue/decode,
                             login, refresh, activation orchestration
  - `service/rate_limiter.py`: fixed-window rate limiter over an association-list map
  - `routers/contact.py`   : the GET /contact/:id handler, including its arity-faulty
                             call into the repository

  Database sessions are modelled by explicit state passing (a `List` of rows);
  Python exceptions are modelled by `Except PyError`; the SQLAlchemy method
  `scalar_one_or_none` is modelled faithfully, including its multiple-rows error.
-/

deriving instance DecidableEq for Except

namespace FastapiExample

/-- Python/SQLAlchemy run-time failures that the embedded code can raise. -/
inductive PyError where
  /-- `jose.exceptions.JWTError`: bad signature, malformed or expired token. -/
  | jwtError
  /-- attribute access or assignment on `None` (e.g. `None.is_active`, `setattr(None, ...)`). -/
  | attributeError
  /-- function call missing a required positional argument. -/
  | typeError
  /-- `sqlalchemy Session.delete(None)`: the instance is not mapped. -/
  | unmappedInstanceError
  /-- `Result.scalar_one_or_none` found more than one row. -/
  | multipleResultsFound
  /-- `fastapi.HTTPException(status_code, detail)`. -/
  | httpError (statusCode : Nat) (detail : String)
deriving Repr, DecidableEq

/-- `entity/models.py` `Contact`: birth date and timestamps as integer day/time stamps. -/
structure Contact where
  id : Nat
  first_name : String
  last_name : String
  email : String
  birth_date : Int
  created_by : Nat
  created_at : Int
  modified_at : Int
deriving Repr, DecidableEq

/-- `entity/models.py` `User`. `otp` and `image` are nullable columns. -/
structure User where
  id : Nat
  email : String
  passwd : String
  salt : String
  is_active : Bool
  otp : Option Nat
  image : Option String
  created_at : Int
  modified_at : Int
deriving Repr, DecidableEq

/-- SQLAlchemy `Result.scalar_one_or_none`: `none` on zero rows, the row on exactly
one, and `MultipleResultsFound` on two or more. -/
def scalar_one_or_none {α : Type} : List α → Except PyError (Option α)
  | [] => .ok none
  | [a] => .ok (some a)
  | _ :: _ :: _ => .error .multipleResultsFound

/-- SQL `LIKE` with pattern `%pat%` (as built in `repository/contact.py`):
true iff `pat` occurs contiguously inside the scanned column value. -/
def likeFrom (pat : List Char) (hay : List Char) : Bool :=
  match hay with
  | [] => pat.isEmpty
  | c :: rest => pat.isPrefixOf (c :: rest) || likeFrom pat rest

/-- Column value `value` matches `LIKE` with the pattern %pat%. -/
def sqlLikeAnywhere (value pat : String) : Bool :=
  likeFrom pat.toList value.toList

/-- `repository/contact.py get_contacts`: owner-filtered page of the contacts table
(SQL `OFFSET` then `LIMIT`). -/
def get_contacts (limit offset : Nat) (db : List Contact) (user_id : Nat) : List Contact :=
  (((db.filter (fun c => c.created_by == user_id)).drop offset).take limit)

/-- `repository/contact.py get_contact`: the single contact with the given id owned by
`user_id`, via `scalar_one_or_none`. -/
def get_contact (contact_id : Nat) (db : List Contact) (user_id : Nat) :
    Except PyError (Option Contact) :=
  scalar_one_or_none (db.filter (fun c => c.created_by == user_id && c.id == contact_id))

/-- `schemas/contact.py ContactEditSchema`: every field optional, `none` = field not supplied. -/
structure ContactEditSchema where
  first_name : Option String
  last_name : Option String
  email : Option String
  birth_date : Option Int
deriving Repr, DecidableEq

/-- The field loop of `repository/contact.py edit_contact`:
`for field, value in body: if value is not None: setattr(contact, field, value)`,
followed by the unconditional `modified_at` bump. -/
def edit_apply (c : Contact) (b : ContactEditSchema) (now : Int) : Contact :=
  { c with
    first_name := b.first_name.getD c.first_name
    last_name := b.last_name.getD c.last_name
    email := b.email.getD c.email
    birth_date := b.birth_date.getD c.birth_date
    modified_at := now }

/-- `repository/contact.py edit_contact`. When the owner-scoped lookup yields `None`,
the first `setattr` on it raises `AttributeError` before any commit, so the table is
returned unchanged alongside the error. -/
def edit_contact (contact_id : Nat) (b : ContactEditSchema) (db : List Contact)
    (now : Int) (user_id : Nat) : Except PyError Contact × List Contact :=
  match get_contact contact_id db user_id with
  | .error e => (.error e, db)
  | .ok none => (.error .attributeError, db)
  | .ok (some c) =>
      let c2 := edit_apply c b now
      (.ok c2, db.map (fun x => if x.id == c.id then c2 else x))

/-- `repository/contact.py delete_contact`. `db.delete(None)` raises
`UnmappedInstanceError` before any commit when the lookup misses. -/
def delete_contact (contact_id : Nat) (db : List Contact) (user_id : Nat) :
    Except PyError Contact × List Contact :=
  match get_contact contact_id db user_id with
  | .error e => (.error e, db)
  | .ok none => (.error .unmappedInstanceError, db)
  | .ok (some c) => (.ok c, db.filter (fun x => !(x.id == c.id)))

/-- `repository/contact.py get_contact_by_name`: owner filter conjoined with
`first_name LIKE %q% OR last_name LIKE %q%`. -/
def get_contact_by_name (name_query : String) (db : List Contact) (user_id : Nat) :
    List Contact :=
  db.filter (fun c =>
    c.created_by == user_id &&
      (sqlLikeAnywhere c.first_name name_query || sqlLikeAnywhere c.last_name name_query))

/-- `repository/contact.py get_contact_by_mail`: owner filter conjoined with
`email LIKE %q%`. -/
def get_contact_by_mail (mail_query : String) (db : List Contact) (user_id : Nat) :
    List Contact :=
  db.filter (fun c => c.created_by == user_id && sqlLikeAnywhere c.email mail_query)

/-- `repository/contact.py get_birthday_list`: owner filter conjoined with
`birth_date BETWEEN today AND today + 7` (SQL `BETWEEN` is inclusive). -/
def get_birthday_list (db : List Contact) (user_id : Nat) (today : Int) : List Contact :=
  db.filter (fun c =>
    c.created_by == user_id &&
      (decide (today ≤ c.birth_date) && decide (c.birth_date ≤ today + 7)))

/-- Value returned by the router GET /contact/:id handler when it does not raise:
either the contact or the bare integer status code `303`. -/
inductive ContactResponse where
  | contact (c : Contact)
  | rawStatus (code : Nat)
deriving Repr, DecidableEq

/-- A Python-level call of `repository.contact.get_contact` with an optional third
positional argument: `none` models the caller omitting the required `user_id`
parameter, which raises `TypeError` before any query runs. -/
def call_repo_get_contact (contact_id : Nat) (db : List Contact) (user_id : Option Nat) :
    Except PyError (Option Contact) :=
  match user_id with
  | none => .error .typeError
  | some uid => get_contact contact_id db uid

/-- `routers/contact.py get_contact` handler for GET /contact/:id. The source calls
`repo_contact.get_contact(id_, db)`, supplying only two of the three required
positional parameters of the repository function, so `user_id` is `none` here. On a `None`
lookup result the handler returns the bare value `status.HTTP_303_SEE_OTHER`. -/
def router_get_contact (id_ : Nat) (db : List Contact) : Except PyError ContactResponse :=
  match call_repo_get_contact id_ db none with
  | .error e => .error e
  | .ok none => .ok (.rawStatus 303)
  | .ok (some c) => .ok (.contact c)

/-- `repository/user.py find_user`: the single user with the given email, via
`scalar_one_or_none`. -/
def find_user (email : String) (db : List User) : Except PyError (Option User) :=
  scalar_one_or_none (db.filter (fun u => u.email == email))

/-- `repository/user.py update_otp`. `if not otp:` in Python is true for both `None`
and `0`, so those cases draw the random value — `rng` models the outcome of
`randint(100000, 999999)`. Returns the resulting otp and the committed table. -/
def update_otp (user : User) (db : List User) (otp : Option Nat) (rng : Nat) :
    Nat × List User :=
  let newOtp := match otp with
    | none => rng
    | some o => if o == 0 then rng else o
  (newOtp, db.map (fun x => if x.id == user.id then { x with otp := some newOtp } else x))

/-- `repository/user.py user_activation`: sets `is_active` and commits. -/
def user_activation (user : User) (db : List User) (active : Bool) : List User :=
  db.map (fun x => if x.id == user.id then { x with is_active := active } else x)

/-- Decoded JWT claim set, as assembled by `service/auth.py`:
subject email (a nullable claim), expiry, issued-at, and the scope tag. -/
structure TokenClaims where
  sub : Option String
  exp : Int
  iat : Int
  scope : String
deriving Repr, DecidableEq

/-- A JWT, abstracted: either encoded with the process secret (so decoding recovers
exactly the claims), or malformed / signed with a different key. -/
inductive JoseToken where
  | signed (claims : TokenClaims)
  | invalid
deriving Repr, DecidableEq

/-- `jose jwt.decode` with the process secret: raises `JWTError` on a malformed or
foreign token and on an expired one (`exp` strictly before now); otherwise returns
the claims. -/
def jwt_decode (token : JoseToken) (now : Int) : Except PyError TokenClaims :=
  match token with
  | .invalid => .error .jwtError
  | .signed c => if c.exp < now then .error .jwtError else .ok c

/-- `service/auth.py create_access_token`: expiry `now + expires_delta`, defaulting
to 15 minutes; scope tag `access_token`. Durations in seconds. -/
def create_access_token (sub : String) (expires_delta : Option Int) (now : Int) :
    JoseToken :=
  .signed { sub := some sub, exp := now + expires_delta.getD (15 * 60),
            iat := now, scope := "access_token" }

/-- `service/auth.py create_refresh_token`: expiry `now + expires_delta`, defaulting
to 1000 minutes; scope tag `refresh_token`. -/
def create_refresh_token (sub : String) (expires_delta : Option Int) (now : Int) :
    JoseToken :=
  .signed { sub := some sub, exp := now + expires_delta.getD (1000 * 60),
            iat := now, scope := "refresh_token" }

/-- `service/auth.py` module constant: access-token TTL in minutes. -/
def ACCESS_TOKEN_EXPIRE_MINUTES : Int := 30

/-- `service/auth.py` module constant: login-path refresh-token TTL in minutes. -/
def REFRESH_TOKEN_EXPIRATION : Int := 1440

/-- `service/auth.py get_current_user`: decode, require scope `access_token` and a
non-null subject, then resolve the user; every failure is 401. -/
def get_current_user (token : JoseToken) (db : List User) (now : Int) :
    Except PyError User :=
  match jwt_decode token now with
  | .error _ => .error (.httpError 401 "Could not validate credentials")
  | .ok payload =>
    if payload.scope == "access_token" then
      match payload.sub with
      | none => .error (.httpError 401 "Could not validate credentials")
      | some email =>
        match find_user email db with
        | .error e => .error e
        | .ok none => .error (.httpError 401 "Could not validate credentials")
        | .ok (some u) => .ok u
    else .error (.httpError 401 "Could not validate credentials")

/-- `service/auth.py decode_refresh_token`: decode, require scope `refresh_token`,
return the subject claim as-is (it is not checked against null here). -/
def decode_refresh_token (refresh_tok : JoseToken) (now : Int) :
    Except PyError (Option String) :=
  match jwt_decode refresh_tok now with
  | .error _ => .error (.httpError 401 "Could not validate credentials")
  | .ok payload =>
    if payload.scope == "refresh_token" then .ok payload.sub
    else .error (.httpError 401 "Invalid scope for token")

/-- `service/auth.py authenticate_user` (through `get_user`): look the email up and
check the password with the hashing primitive, passed in as `verify`. -/
def authenticate_user (verify : String → String → Bool) (db : List User)
    (email password : String) : Except PyError (Option User) :=
  match find_user email db with
  | .error e => .error e
  | .ok none => .ok none
  | .ok (some u) => if verify password u.passwd then .ok (some u) else .ok none

/-- `schemas/auth.py Token`: the access/refresh pair returned by login and refresh. -/
structure Token where
  access_token : JoseToken
  refresh_token : JoseToken
  token_type : String
deriving Repr, DecidableEq

/-- `service/auth.py generate_token` (login). The guard is
`if not user and not user.is_active:` — for a `None` user the left conjunct is true
and the right conjunct dereferences `None`, raising `AttributeError`; for a real
user the whole branch is skipped by short-circuiting. An active user gets its OTP
re-drawn (`update_otp(user, db, otp=None)`) before the pair is issued with the
module-constant TTLs. -/
def generate_token (verify : String → String → Bool) (db : List User)
    (username password : String) (now : Int) (rng : Nat) :
    Except PyError Token × List User :=
  match authenticate_user verify db username password with
  | .error e => (.error e, db)
  | .ok none => (.error .attributeError, db)
  | .ok (some user) =>
    if user.is_active then
      let db2 := (update_otp user db none rng).2
      let access := create_access_token user.email
        (some (ACCESS_TOKEN_EXPIRE_MINUTES * 60)) now
      let refresh := create_refresh_token user.email
        (some (REFRESH_TOKEN_EXPIRATION * 60)) now
      (.ok { access_token := access, refresh_token := refresh, token_type := "bearer" }, db2)
    else (.error (.httpError 401 "User is not activated"), db)

/-- `service/auth.py refresh_user_token`: decode the refresh token, resolve the
subject, and reissue a pair with the DEFAULT TTLs (no `expires_delta` is passed on
this path). A null subject matches no row of the non-nullable email column. -/
def refresh_user_token (token : JoseToken) (db : List User) (now : Int) :
    Except PyError Token :=
  match decode_refresh_token token now with
  | .error e => .error e
  | .ok none => .error (.httpError 401 "Invalid token")
  | .ok (some email) =>
    match find_user email db with
    | .error e => .error e
    | .ok (some u) =>
      if u.is_active then
        .ok { access_token := create_access_token email none now,
              refresh_token := create_refresh_token email none now,
              token_type := "bearer" }
      else .error (.httpError 401 "Invalid token")
    | .ok none => .error (.httpError 401 "Invalid token")

/-- `service/auth.py activate_user`. On an OTP mismatch the source constructs
`HTTPException(401, "Wrong activation password")` but never raises it; control then
falls through to the final raise, so the unknown-email and the mismatch paths both
surface as 401 with detail "User is not found". A match activates and returns the
refreshed user. -/
def activate_user (user_mail : String) (otp : Nat) (db : List User) :
    Except PyError User × List User :=
  match find_user user_mail db with
  | .error e => (.error e, db)
  | .ok (some u) =>
    if u.otp == some otp then
      (.ok { u with is_active := true }, user_activation u db true)
    else
      (.error (.httpError 401 "User is not found"), db)
  | .ok none => (.error (.httpError 401 "User is not found"), db)

/-- `dict.get` on the `requests` map of the rate limiter, modelled as an association
list from client id to (window start time, request count). -/
def dict_get (m : List (Nat × Int × Nat)) (k : Nat) : Option (Int × Nat) :=
  match m.find? (fun e => e.1 == k) with
  | none => none
  | some e => some e.2

/-- `dict.__setitem__` on the `requests` map: replace the entry if present,
append it otherwise. -/
def dict_set (m : List (Nat × Int × Nat)) (k : Nat) (v : Int × Nat) :
    List (Nat × Int × Nat) :=
  if m.any (fun e => e.1 == k) then m.map (fun e => if e.1 == k then (k, v) else e)
  else m ++ [(k, v)]

/-- `service/rate_limiter.py RateLimiter`: per-client (window start, count) records
plus the fixed `(max_requests, window_time)` configuration. -/
structure RateLimiter where
  requests : List (Nat × Int × Nat)
  max_requests : Nat
  window_time : Int
deriving Repr, DecidableEq

/-- `RateLimiter.is_allowed`: fixed-window decision at `current_time`, returning the
verdict and the updated limiter state. Mirrors the source case by case: missing
record → create `(T, 1)` and allow; stale window (`T - start > window`) → reset and
allow; `count < max` → increment (window start unchanged) and allow; else deny. -/
def RateLimiter.is_allowed (rl : RateLimiter) (client_id : Nat) (current_time : Int) :
    Bool × RateLimiter :=
  match dict_get rl.requests client_id with
  | none =>
      (true, { rl with requests := dict_set rl.requests client_id (current_time, 1) })
  | some (last_request_time, request_count) =>
    if current_time - last_request_time > rl.window_time then
      (true, { rl with requests := dict_set rl.requests client_id (current_time, 1) })
    else if request_count < rl.max_requests then
      (true,
       { rl with
         requests := dict_set rl.requests client_id (last_request_time, request_count + 1) })
    else (false, rl)

/-- The module-level singleton configuration: `RateLimiter(3, 120)`. -/
def rate_limiter : RateLimiter :=
  { requests := [], max_requests := 3, window_time := 120 }

/-- `service/rate_limiter.py limit_allowed`: returns True when allowed, raises
HTTP 429 "Too Many Requests" when denied. -/
def limit_allowed (rl : RateLimiter) (client_id : Nat) (now : Int) :
    Except PyError Bool × RateLimiter :=
  let r := rl.is_allowed client_id now
  if r.1 then (.ok true, r.2) else (.error (.httpError 429 "Too Many Requests"), r.2)

/-- True iff the embedded operation returned normally (no Python exception). -/
def isOk {α : Type} : Except PyError α → Bool
  | .ok _ => true
  | .error _ => false

/-- The HTTP status code carried by the result, when it is an `HTTPException`. -/
def errStatus {α : Type} : Except PyError α → Option Nat
  | .error (.httpError s _) => some s
  | _ => none

/-- The expiry claim of a token issued by this code (0 for a foreign token). -/
def tokenExp : JoseToken → Int
  | .signed c => c.exp
  | .invalid => 0

/-- The issued-at claim of a token issued by this code (0 for a foreign token). -/
def tokenIat : JoseToken → Int
  | .signed c => c.iat
  | .invalid => 0

/-- The token pair of a login/refresh result, with dummies on the error side. -/
def tokenOfResult (r : Except PyError Token) : Token :=
  match r with
  | .ok t => t
  | .error _ => { access_token := .invalid, refresh_token := .invalid, token_type := "" }

/-- Sample password verifier for concrete witnesses: the sample rows below store
their password in the clear, so verification is plain equality. -/
def plainEq : String → String → Bool := fun p h => p == h

/-- A sample active user row used by concrete witnesses. -/
def activeUser : User :=
  { id := 1, email := "ann@example.com", passwd := "pw", salt := "s", is_active := true,
    otp := some 123456, image := none, created_at := 0, modified_at := 0 }

/-- A sample inactive user row used by concrete witnesses. -/
def inactiveUser : User :=
  { id := 2, email := "bob@example.com", passwd := "pw", salt := "s", is_active := false,
    otp := some 654321, image := none, created_at := 0, modified_at := 0 }

/-- A sample contact row used by concrete witnesses. -/
def sampleContact : Contact :=
  { id := 1, first_name := "Ann", last_name := "Lee", email := "ann@example.com",
    birth_date := 3, created_by := 1, created_at := 0, modified_at := 0 }

theorem scalar_one_or_none_eq_some {α : Type} {l : List α} {a : α}
    (h : scalar_one_or_none l = .ok (some a)) : l = [a] := by
  match l with
  | [] => simp [scalar_one_or_none] at h
  | [x] =>
      simp [scalar_one_or_none] at h
      simp [h]
  | x :: y :: rest => simp [scalar_one_or_none] at h

theorem filter_map_comm {α : Type} (f : α → α) (p : α → Bool) (l : List α)
    (h : ∀ x, p (f x) = p x) : (l.map f).filter p = (l.filter p).map f := by
  induction l with
  | nil => rfl
  | cons x xs ih =>
      simp only [List.map_cons, List.filter_cons, h x]
      cases hx : p x
      · simpa using ih
      · simpa using ih

/-- Claim C1: every contact-read query of the repository (list, get-by-id,
search-by-name, search-by-mail, birthday-list) conjuncts an owner-id predicate, so
the `created_by` of each returned contact equals the id of the requesting user. -/
theorem contact_queries_owner_scoped (db : List Contact) (uid limit offset cid : Nat)
    (q : String) (today : Int) (c : Contact) :
    (c ∈ get_contacts limit offset db uid → c.created_by = uid) ∧
    (get_contact cid db uid = .ok (some c) → c.created_by = uid) ∧
    (c ∈ get_contact_by_name q db uid → c.created_by = uid) ∧
    (c ∈ get_contact_by_mail q db uid → c.created_by = uid) ∧
    (c ∈ get_birthday_list db uid today → c.created_by = uid) := by
  refine ⟨?_, ?_, ?_, ?_, ?_⟩
  · intro h
    have h1 : c ∈ (db.filter (fun c => c.created_by == uid)) :=
      List.drop_subset _ _ (List.take_subset _ _ h)
    have h2 := (List.mem_filter.mp h1).2
    simpa using h2
  · intro h
    have h1 : c ∈ db.filter (fun x => x.created_by == uid && x.id == cid) := by
      rw [scalar_one_or_none_eq_some h]
      exact List.mem_singleton_self c
    have h2 := (List.mem_filter.mp h1).2
    simp at h2
    exact h2.1
  · intro h
    have h2 := (List.mem_filter.mp h).2
    simp at h2
    exact h2.1
  · intro h
    have h2 := (List.mem_filter.mp h).2
    simp at h2
    exact h2.1
  · intro h
    have h2 := (List.mem_filter.mp h).2
    simp at h2
    exact h2.1

/-- Concrete instantiation of `contact_queries_owner_scoped` on a one-row table:
each of the five read paths returns `sampleContact` for owner 1, whose
`created_by` is indeed 1. -/
theorem contact_queries_owner_scoped_witness :
    (sampleContact ∈ get_contacts 10 0 [sampleContact] 1 ∧ sampleContact.created_by = 1) ∧
    (get_contact 1 [sampleContact] 1 = .ok (some sampleContact) ∧ sampleContact.created_by = 1) ∧
    (sampleContact ∈ get_contact_by_name "nn" [sampleContact] 1 ∧ sampleContact.created_by = 1) ∧
    (sampleContact ∈ get_contact_by_mail "ann@" [sampleContact] 1 ∧ sampleContact.created_by = 1) ∧
    (sampleContact ∈ get_birthday_list [sampleContact] 1 0 ∧ sampleContact.created_by = 1) :=
  ⟨⟨by decide, (contact_queries_owner_scoped [sampleContact] 1 10 0 1 "nn" 0 sampleContact).1
      (by decide)⟩,
   ⟨by decide, (contact_queries_owner_scoped [sampleContact] 1 10 0 1 "nn" 0 sampleContact).2.1
      (by decide)⟩,
   ⟨by decide, (contact_queries_owner_scoped [sampleContact] 1 10 0 1 "nn" 0 sampleContact).2.2.1
      (by decide)⟩,
   ⟨by decide, (contact_queries_owner_scoped [sampleContact] 1 10 0 1 "ann@" 0 sampleContact).2.2.2.1
      (by decide)⟩,
   ⟨by decide, (contact_queries_owner_scoped [sampleContact] 1 10 0 1 "nn" 0 sampleContact).2.2.2.2
      (by decide)⟩⟩

/-- Claim C2: the rate limiter is fixed-window — no record creates `(T, 1)` and
allows; `T - start > window` resets to `(T, 1)` and allows; otherwise `count < max`
increments (window start unchanged) and allows; otherwise it denies, and
`limit_allowed` surfaces a denial as HTTP 429. With the singleton configuration
(max=3, window=120s) the 4th request of a client within 10 seconds is denied, and a
request after the window elapses is allowed again with its counter reset to 1. -/
theorem rate_limiter_fixed_window (rl : RateLimiter) (cid : Nat) (T : Int) :
    (dict_get rl.requests cid = none →
      rl.is_allowed cid T =
        (true, { rl with requests := dict_set rl.requests cid (T, 1) })) ∧
    (∀ s c, dict_get rl.requests cid = some (s, c) → T - s > rl.window_time →
      rl.is_allowed cid T =
        (true, { rl with requests := dict_set rl.requests cid (T, 1) })) ∧
    (∀ s c, dict_get rl.requests cid = some (s, c) → ¬(T - s > rl.window_time) →
      c < rl.max_requests →
      rl.is_allowed cid T =
        (true, { rl with requests := dict_set rl.requests cid (s, c + 1) })) ∧
    (∀ s c, dict_get rl.requests cid = some (s, c) → ¬(T - s > rl.window_time) →
      ¬(c < rl.max_requests) → rl.is_allowed cid T = (false, rl)) ∧
    ((limit_allowed rl cid T).1 = .error (.httpError 429 "Too Many Requests") ↔
      (rl.is_allowed cid T).1 = false) ∧
    (let r1 := rate_limiter.is_allowed 7 0
     let r2 := r1.2.is_allowed 7 2
     let r3 := r2.2.is_allowed 7 5
     let r4 := r3.2.is_allowed 7 9
     let r5 := r4.2.is_allowed 7 121
     r1.1 = true ∧ r2.1 = true ∧ r3.1 = true ∧ r4.1 = false ∧
       r5.1 = true ∧ dict_get r5.2.requests 7 = some (121, 1)) := by
  refine ⟨?_, ?_, ?_, ?_, ?_, ?_⟩
  · intro h
    simp [RateLimiter.is_allowed, h]
  · intro s c h hgt
    simp [RateLimiter.is_allowed, h, hgt]
  · intro s c h hgt hlt
    simp [RateLimiter.is_allowed, h, hgt, hlt]
  · intro s c h hgt hlt
    simp [RateLimiter.is_allowed, h, hgt, hlt]
  · cases hb : (rl.is_allowed cid T).1 <;> simp [limit_allowed, hb]
  · decide

/-- Concrete instantiation of `rate_limiter_fixed_window` for each branch of the
fixed-window case analysis, at the singleton configuration. -/
theorem rate_limiter_fixed_window_witness :
    RateLimiter.is_allowed ⟨[], 3, 120⟩ 5 100 = (true, ⟨[(5, 100, 1)], 3, 120⟩) ∧
    RateLimiter.is_allowed ⟨[(5, 0, 2)], 3, 120⟩ 5 200 = (true, ⟨[(5, 200, 1)], 3, 120⟩) ∧
    RateLimiter.is_allowed ⟨[(5, 0, 2)], 3, 120⟩ 5 50 = (true, ⟨[(5, 0, 3)], 3, 120⟩) ∧
    RateLimiter.is_allowed ⟨[(5, 0, 3)], 3, 120⟩ 5 50 = (false, ⟨[(5, 0, 3)], 3, 120⟩) :=
  ⟨((rate_limiter_fixed_window ⟨[], 3, 120⟩ 5 100).1 (by decide)).trans (by decide),
   ((rate_limiter_fixed_window ⟨[(5, 0, 2)], 3, 120⟩ 5 200).2.1 0 2 (by decide)
      (by decide)).trans (by decide),
   ((rate_limiter_fixed_window ⟨[(5, 0, 2)], 3, 120⟩ 5 50).2.2.1 0 2 (by decide)
      (by decide) (by decide)).trans (by decide),
   ((rate_limiter_fixed_window ⟨[(5, 0, 3)], 3, 120⟩ 5 50).2.2.2.1 0 3 (by decide)
      (by decide) (by decide)).trans (by decide)⟩

/-- Claim C3: token scope is enforced by every consumer — `get_current_user`
returns a user only when the token decodes with scope `access_token` and rejects a
refresh-scoped token with 401; `decode_refresh_token` returns a subject only when
the token decodes with scope `refresh_token` and rejects an access-scoped token
with 401. -/
theorem token_scope_enforced (tok : JoseToken) (now : Int) (db : List User) :
    (∀ u, get_current_user tok db now = .ok u →
      ∃ c, jwt_decode tok now = .ok c ∧ c.scope = "access_token") ∧
    (∀ c, jwt_decode tok now = .ok c → c.scope = "refresh_token" →
      get_current_user tok db now =
        .error (.httpError 401 "Could not validate credentials")) ∧
    (∀ s, decode_refresh_token tok now = .ok s →
      ∃ c, jwt_decode tok now = .ok c ∧ c.scope = "refresh_token") ∧
    (∀ c, jwt_decode tok now = .ok c → c.scope = "access_token" →
      decode_refresh_token tok now =
        .error (.httpError 401 "Invalid scope for token")) := by
  refine ⟨?_, ?_, ?_, ?_⟩
  · intro u h
    cases hd : jwt_decode tok now with
    | error e => simp [get_current_user, hd] at h
    | ok c =>
        by_cases hs : c.scope = "access_token"
        · exact ⟨c, rfl, hs⟩
        · simp [get_current_user, hd, hs] at h
  · intro c hd hs
    simp [get_current_user, hd, hs]
  · intro s h
    cases hd : jwt_decode tok now with
    | error e => simp [decode_refresh_token, hd] at h
    | ok c =>
        by_cases hs : c.scope = "refresh_token"
        · exact ⟨c, rfl, hs⟩
        · simp [decode_refresh_token, hd, hs] at h
  · intro c hd hs
    simp [decode_refresh_token, hd, hs]

/-- Concrete instantiation of `token_scope_enforced`: a freshly issued
refresh-scoped token is rejected by `get_current_user`, and a freshly issued
access-scoped token is rejected by `decode_refresh_token`, both with 401. -/
theorem token_scope_enforced_witness :
    get_current_user (create_refresh_token "ann@example.com" none 0) [activeUser] 0
      = .error (.httpError 401 "Could not validate credentials") ∧
    decode_refresh_token (create_access_token "ann@example.com" none 0) 0
      = .error (.httpError 401 "Invalid scope for token") :=
  ⟨(token_scope_enforced (create_refresh_token "ann@example.com" none 0) 0
      [activeUser]).2.1
      { sub := some "ann@example.com", exp := 0 + 1000 * 60, iat := 0,
        scope := "refresh_token" } (by decide) (by decide),
   (token_scope_enforced (create_access_token "ann@example.com" none 0) 0
      [activeUser]).2.2.2
      { sub := some "ann@example.com", exp := 0 + 15 * 60, iat := 0,
        scope := "access_token" } (by decide) (by decide)⟩

/-- Claim C4 (code bug): the login guard `if not user and not user.is_active:`
dereferences `None`, so an unknown email or a wrong password raises
`AttributeError` instead of HTTP 401; only the inactive-account branch actually
raises 401. Evaluated here at the failing inputs. -/
theorem login_bad_credentials_crash :
    generate_token plainEq [] "nobody@example.com" "pw" 0 500000
      = (.error .attributeError, []) ∧
    (generate_token plainEq [activeUser] "ann@example.com" "wrong" 0 500000).1
      = .error .attributeError ∧
    (generate_token plainEq [inactiveUser] "bob@example.com" "pw" 0 500000).1
      = .error (.httpError 401 "User is not activated") := by decide

/-- Claim C5 counterexample: activation with an unknown email fails with HTTP 401,
not with a NotFound (404) as the claim states. -/
theorem activation_unknown_email_not_404 :
    errStatus (activate_user "ghost@example.com" 111111 []).1 = some 401 ∧
    errStatus (activate_user "ghost@example.com" 111111 []).1 ≠ some 404 := by decide

/-- Claim C5 (amended): activation fails with 401 "User is not found" when the
email is unknown AND when the OTP mismatches (the intended "Wrong activation
password" exception is constructed but never raised); on an exact OTP match it
activates and returns the user; it succeeds iff the submitted OTP equals the
persisted OTP. -/
theorem activation_behavior (db : List User) (mail : String) (otp : Nat) :
    (find_user mail db = .ok none →
      activate_user mail otp db = (.error (.httpError 401 "User is not found"), db)) ∧
    (∀ u, find_user mail db = .ok (some u) → u.otp ≠ some otp →
      activate_user mail otp db = (.error (.httpError 401 "User is not found"), db)) ∧
    (∀ u, find_user mail db = .ok (some u) → u.otp = some otp →
      (activate_user mail otp db).1 = .ok { u with is_active := true } ∧
      (activate_user mail otp db).2 = user_activation u db true) ∧
    (∀ u, find_user mail db = .ok (some u) →
      (isOk (activate_user mail otp db).1 = true ↔ u.otp = some otp)) := by
  refine ⟨?_, ?_, ?_, ?_⟩
  · intro h
    simp [activate_user, h]
  · intro u h hne
    simp [activate_user, h, hne]
  · intro u h hotp
    simp [activate_user, h, hotp]
  · intro u h
    by_cases hotp : u.otp = some otp
    · simp [activate_user, h, hotp, isOk]
    · simp [activate_user, h, hotp, isOk]

/-- Concrete instantiation of `activation_behavior`: unknown email 401, wrong OTP
401, matching OTP activates. -/
theorem activation_behavior_witness :
    activate_user "ghost@example.com" 123456 [activeUser]
      = (.error (.httpError 401 "User is not found"), [activeUser]) ∧
    activate_user "ann@example.com" 999999 [activeUser]
      = (.error (.httpError 401 "User is not found"), [activeUser]) ∧
    (activate_user "ann@example.com" 123456 [activeUser]).1
      = .ok { activeUser with is_active := true } :=
  ⟨(activation_behavior [activeUser] "ghost@example.com" 123456).1 (by decide),
   (activation_behavior [activeUser] "ann@example.com" 999999).2.1 activeUser
     (by decide) (by decide),
   ((activation_behavior [activeUser] "ann@example.com" 123456).2.2.1 activeUser
     (by decide) (by decide)).1⟩

/-- Claim C6 counterexample: on the login path the refresh token issued at time 0
expires at 86400s = 1440 minutes, not 1000 minutes; on the refresh path the access
token issued at time 0 expires at 900s = 15 minutes, not 30 minutes. -/
theorem token_ttl_counterexample :
    tokenExp ((tokenOfResult
        (generate_token plainEq [activeUser] "ann@example.com" "pw" 0 500000).1).refresh_token)
      = 86400 ∧
    (86400 : Int) ≠ 1000 * 60 ∧
    tokenExp ((tokenOfResult
        (refresh_user_token (create_refresh_token "ann@example.com" none 0)
          [activeUser] 0)).access_token)
      = 900 ∧
    (900 : Int) ≠ 30 * 60 := by decide

/-- Claim C6 (amended): the login path issues an access token expiring 30 minutes
and a refresh token expiring 1440 minutes after issuance
(`REFRESH_TOKEN_EXPIRATION = 1440`); the refresh path passes no `expires_delta`,
so it issues an access token expiring 15 minutes and a refresh token expiring
1000 minutes after issuance (the encoder defaults). -/
theorem token_ttl_amended (verify : String → String → Bool) (db : List User)
    (u : User) (username password : String) (now now2 : Int) (rng : Nat)
    (c : TokenClaims) (tok : JoseToken) :
    (find_user username db = .ok (some u) → verify password u.passwd = true →
      u.is_active = true →
      (generate_token verify db username password now rng).1 =
        .ok ⟨.signed ⟨some u.email, now + 30 * 60, now, "access_token"⟩,
             .signed ⟨some u.email, now + 1440 * 60, now, "refresh_token"⟩,
             "bearer"⟩) ∧
    (jwt_decode tok now2 = .ok c → c.scope = "refresh_token" → c.sub = some u.email →
      find_user u.email db = .ok (some u) → u.is_active = true →
      refresh_user_token tok db now2 =
        .ok ⟨.signed ⟨some u.email, now2 + 15 * 60, now2, "access_token"⟩,
             .signed ⟨some u.email, now2 + 1000 * 60, now2, "refresh_token"⟩,
             "bearer"⟩) := by
  constructor
  · intro hf hv ha
    simp [generate_token, authenticate_user, hf, hv, ha, create_access_token,
      create_refresh_token, ACCESS_TOKEN_EXPIRE_MINUTES, REFRESH_TOKEN_EXPIRATION]
  · intro hd hs hsub hf ha
    simp [refresh_user_token, decode_refresh_token, hd, hs, hsub, hf, ha,
      create_access_token, create_refresh_token]

/-- Concrete instantiation of `token_ttl_amended` on both paths. -/
theorem token_ttl_amended_witness :
    tokenExp ((tokenOfResult
        (generate_token plainEq [activeUser] "ann@example.com" "pw" 0 500000).1).access_token)
      = 1800 ∧
    tokenExp ((tokenOfResult
        (refresh_user_token (create_refresh_token "ann@example.com" none 0)
          [activeUser] 0)).refresh_token)
      = 60000 :=
  ⟨(congrArg (fun r => tokenExp ((tokenOfResult r).access_token))
      ((token_ttl_amended plainEq [activeUser] activeUser "ann@example.com" "pw" 0 0
          500000 ⟨some "ann@example.com", 0 + 1000 * 60, 0, "refresh_token"⟩
          (create_refresh_token "ann@example.com" none 0)).1
        (by decide) (by decide) (by decide))).trans (by decide),
   (congrArg (fun r => tokenExp ((tokenOfResult r).refresh_token))
      ((token_ttl_amended plainEq [activeUser] activeUser "ann@example.com" "pw" 0 0
          500000 ⟨some "ann@example.com", 0 + 1000 * 60, 0, "refresh_token"⟩
          (create_refresh_token "ann@example.com" none 0)).2
        (by decide) (by decide) (by decide) (by decide) (by decide))).trans (by decide)⟩

/-- Claim C7 counterexample: the freshly drawn OTP can collide with the pre-login
OTP (`randint(100000, 999999)` may return the stored value, here 123456). In that
case a successful login leaves the persisted state identical to before, and
repeating activation with the pre-login OTP still succeeds — refuting both the
unconditional "distinct state from before" and "activation with the pre-login OTP
fails". -/
theorem otp_reset_counterexample :
    (generate_token plainEq [activeUser] "ann@example.com" "pw" 0 123456).2
      = [activeUser] ∧
    isOk (generate_token plainEq [activeUser] "ann@example.com" "pw" 0 123456).1
      = true ∧
    isOk (activate_user "ann@example.com" 123456
      (generate_token plainEq [activeUser] "ann@example.com" "pw" 0 123456).2).1
      = true := by decide

/-- Claim C7 (amended): a successful login re-draws the persisted OTP to the
freshly drawn 6-digit value before issuing the token pair, and whenever the drawn
value differs from the pre-login OTP (all but a 1-in-900000 draw), repeating
activation with the pre-login OTP afterwards fails with 401. -/
theorem otp_reset_amended (verify : String → String → Bool) (db : List User)
    (u : User) (username password : String) (now : Int) (rng o : Nat)
    (hf : find_user username db = .ok (some u))
    (hv : verify password u.passwd = true)
    (ha : u.is_active = true)
    (hotp : u.otp = some o)
    (hlo : 100000 ≤ rng) (hhi : rng ≤ 999999) (hne : rng ≠ o) :
    isOk (generate_token verify db username password now rng).1 = true ∧
    find_user username (generate_token verify db username password now rng).2
      = .ok (some { u with otp := some rng }) ∧
    activate_user username o (generate_token verify db username password now rng).2
      = (.error (.httpError 401 "User is not found"),
         (generate_token verify db username password now rng).2) := by
  have hdb2 : (generate_token verify db username password now rng).2
      = db.map (fun x => if x.id == u.id then { x with otp := some rng } else x) := by
    simp [generate_token, authenticate_user, hf, hv, ha, update_otp]
  have hfu2 : find_user username (generate_token verify db username password now rng).2
      = .ok (some { u with otp := some rng }) := by
    rw [hdb2]
    unfold find_user
    rw [filter_map_comm _ _ _ (fun x => by cases hx : x.id == u.id <;> simp [hx])]
    have hl : db.filter (fun x => x.email == username) = [u] :=
      scalar_one_or_none_eq_some (by simpa [find_user] using hf)
    rw [hl]
    simp [scalar_one_or_none]
  refine ⟨?_, hfu2, ?_⟩
  · simp [generate_token, authenticate_user, hf, hv, ha, isOk]
  · simp [activate_user, hfu2, hne]

/-- Concrete instantiation of `otp_reset_amended`: OTP 123456 before login, draw
222222 during login, activation with 123456 afterwards rejected with 401. -/
theorem otp_reset_amended_witness :
    isOk (generate_token plainEq [activeUser] "ann@example.com" "pw" 0 222222).1
      = true ∧
    find_user "ann@example.com"
        (generate_token plainEq [activeUser] "ann@example.com" "pw" 0 222222).2
      = .ok (some { activeUser with otp := some 222222 }) ∧
    errStatus (activate_user "ann@example.com" 123456
        (generate_token plainEq [activeUser] "ann@example.com" "pw" 0 222222).2).1
      = some 401 := by
  have h := otp_reset_amended plainEq [activeUser] activeUser "ann@example.com" "pw"
    0 222222 123456 (by decide) (by decide) (by decide) (by decide) (by decide)
    (by decide) (by decide)
  exact ⟨h.1, h.2.1, (congrArg (fun r => errStatus r.1) h.2.2).trans (by decide)⟩

/-- Claim C8 (code bug): the GET /contact/:id handler calls the repository lookup
with only two of its three required positional arguments, so every request raises
`TypeError` — the handler never returns the contact nor the raw 303 status. -/
theorem router_get_contact_always_type_error (id_ : Nat) (db : List Contact) :
    router_get_contact id_ db = .error .typeError := rfl

/-- Claim C9: editing an existing contact overwrites exactly the non-null patch
fields, bumps `modified_at` to the current time, and leaves every null-patched
field and the id, owner and creation timestamp unchanged. -/
theorem edit_contact_partial_update (cid : Nat) (b : ContactEditSchema)
    (db : List Contact) (now : Int) (uid : Nat) (c : Contact)
    (h : get_contact cid db uid = .ok (some c)) :
    (edit_contact cid b db now uid).1 = .ok (edit_apply c b now) ∧
    (edit_apply c b now).first_name = b.first_name.getD c.first_name ∧
    (edit_apply c b now).last_name = b.last_name.getD c.last_name ∧
    (edit_apply c b now).email = b.email.getD c.email ∧
    (edit_apply c b now).birth_date = b.birth_date.getD c.birth_date ∧
    (edit_apply c b now).modified_at = now ∧
    (edit_apply c b now).id = c.id ∧
    (edit_apply c b now).created_by = c.created_by ∧
    (edit_apply c b now).created_at = c.created_at := by
  simp [edit_contact, edit_apply, h]

/-- Concrete instantiation of `edit_contact_partial_update`: patching only the
first name overwrites it, bumps `modified_at`, and keeps everything else. -/
theorem edit_contact_partial_update_witness :
    (edit_contact 1 ⟨some "Bea", none, none, none⟩ [sampleContact] 5 1).1
      = .ok { sampleContact with first_name := "Bea", modified_at := 5 } :=
  ((edit_contact_partial_update 1 ⟨some "Bea", none, none, none⟩ [sampleContact] 5 1
      sampleContact (by decide)).1).trans (by decide)

/-- Claim C10: when no contact owned by the requesting user matches the id, the
edit path raises `AttributeError` (setattr on `None`) and the delete path raises
`UnmappedInstanceError` (`db.delete(None)`) — unhandled errors, not a structured
NotFound — and the contacts table is unchanged. -/
theorem edit_delete_missing_contact_unhandled (cid : Nat) (b : ContactEditSchema)
    (db : List Contact) (now : Int) (uid : Nat)
    (h : get_contact cid db uid = .ok none) :
    edit_contact cid b db now uid = (.error .attributeError, db) ∧
    delete_contact cid db uid = (.error .unmappedInstanceError, db) := by
  simp [edit_contact, delete_contact, h]

/-- Concrete instantiation of `edit_delete_missing_contact_unhandled`: id 2 is
absent, both operations error and the one-row table is untouched. -/
theorem edit_delete_missing_contact_unhandled_witness :
    edit_contact 2 ⟨none, none, none, none⟩ [sampleContact] 5 1
      = (.error .attributeError, [sampleContact]) ∧
    delete_contact 2 [sampleContact] 1
      = (.error .unmappedInstanceError, [sampleContact]) :=
  edit_delete_missing_contact_unhandled 2 ⟨none, none, none, none⟩ [sampleContact] 5 1
    (by decide)

end FastapiExample
